import Mathlib

/-!
Verification development for the kill-fake-news repository.

Shallow embedding of:
- `src/core/llm/embedding_adapter.py` (adapt_embedding, TARGET_DIMENSIONS)
- `src/core/llm/base.py` (provider health state: mark_success / mark_failure /
  is_available)
- `src/core/llm/manager.py` (LLMManager: _get_next_provider and the
  generate_text / generate_json / get_embedding failover loops)
- `src/modules/detection/verification_engine.py` (retry_api, verify_claim,
  _save_to_history)
- `src/modules/analysis/detector.py` (analyze_article, _load_analyzed_urls,
  run_batch_analysis)

External effects (HTTP calls to LLM backends, json.loads on arbitrary text)
are modelled as explicit function parameters returning `Except`; file/JSONL
storage is modelled as explicit list state threaded through the functions.
-/

namespace Vortex

/-! ## Embedding adapter (src/core/llm/embedding_adapter.py) -/

/-- Target dimensionality for the PostgreSQL vector column
(`TARGET_DIMENSIONS = 1536`). -/
def TARGET_DIMENSIONS : Nat := 1536

/-- Transcription of `adapt_embedding(embedding, target_dims)`:
return as-is on exact width, right-pad with `0.0` when smaller,
truncate to the first `target_dims` values when larger. -/
def adapt_embedding (embedding : List Float) (target_dims : Nat) : List Float :=
  let current_dims := embedding.length
  if current_dims = target_dims then
    embedding
  else if current_dims < target_dims then
    embedding ++ List.replicate (target_dims - current_dims) 0.0
  else
    embedding.take target_dims

/-! ## Provider health state (src/core/llm/base.py)

`LLMProvider.__init__` / `EmbeddingProvider.__init__` carry identical health
fields and identical `mark_success` / `mark_failure` / `is_available`
method bodies; they are embedded once. -/

/-- The `ProviderStatus` enum of base.py. -/
inductive ProviderStatus where
  | ACTIVE
  | FAILED
  | RATE_LIMITED
  | DISABLED
deriving DecidableEq, Repr

/-- Mutable health fields shared by `LLMProvider` and `EmbeddingProvider`. -/
structure ProviderState where
  api_key : Option String
  status : ProviderStatus
  error_count : Nat
  success_count : Nat
  last_error : Option String
deriving DecidableEq, Repr

/-- Python truthiness of the `api_key` argument: `not api_key` is true for
`None` and for the empty string. -/
def api_key_falsy : Option String → Bool
  | none => true
  | some s => s = ""

/-- Constructor `__init__(self, api_key)`: status is DISABLED iff no (truthy) key. -/
def init_provider (api_key : Option String) : ProviderState :=
  { api_key := api_key
    status := if api_key_falsy api_key then ProviderStatus.DISABLED else ProviderStatus.ACTIVE
    error_count := 0
    success_count := 0
    last_error := none }

/-- Method `mark_success(self)`: bump success count, reset consecutive errors,
set status ACTIVE. -/
def ProviderState.mark_success (s : ProviderState) : ProviderState :=
  { s with
    success_count := s.success_count + 1
    error_count := 0
    status := ProviderStatus.ACTIVE }

/-- Method `mark_failure(self, error)`: bump consecutive error count, record the
error text, and set status FAILED once the count reaches 3. -/
def ProviderState.mark_failure (s : ProviderState) (error : String) : ProviderState :=
  let ec := s.error_count + 1
  { s with
    error_count := ec
    last_error := some error
    status := if 3 ≤ ec then ProviderStatus.FAILED else s.status }

/-- Method `is_available(self)`: status is ACTIVE and `api_key is not None`. -/
def ProviderState.is_available (s : ProviderState) : Bool :=
  s.status = ProviderStatus.ACTIVE && s.api_key.isSome

/-! ## String containment helper (used to state "message contains ...") -/

/-- Decidable substring test on character lists. -/
def sub_list (needle : List Char) : List Char → Bool
  | [] => needle.isEmpty
  | c :: t => needle.isPrefixOf (c :: t) || sub_list needle t

/-- Decidable substring test on strings. -/
def substr_check (needle hay : String) : Bool :=
  sub_list needle.data hay.data

theorem isPrefixOf_append_self (l t : List Char) : l.isPrefixOf (l ++ t) = true := by
  induction l with
  | nil => simp [List.isPrefixOf]
  | cons c cs ih => simp [List.isPrefixOf, ih]

theorem sub_list_here (n t : List Char) : sub_list n (n ++ t) = true := by
  cases hn : n ++ t with
  | nil =>
    have hn0 : n = [] := (List.append_eq_nil.mp hn).1
    simp [sub_list, hn0]
  | cons c cs =>
    simp only [sub_list]
    rw [← hn]
    simp [isPrefixOf_append_self]

theorem sub_list_extend (n : List Char) (c : Char) (h : List Char)
    (hh : sub_list n h = true) : sub_list n (c :: h) = true := by
  simp [sub_list, hh]

theorem sub_list_append_left (n p h : List Char)
    (hh : sub_list n h = true) : sub_list n (p ++ h) = true := by
  induction p with
  | nil => simpa using hh
  | cons c cs ih => simpa using sub_list_extend n c (cs ++ h) ih

/-- A needle is found inside `pre ++ needle ++ post`. -/
theorem substr_check_of_parts (needle pre post : String) :
    substr_check needle (pre ++ (needle ++ post)) = true := by
  show sub_list needle.data (pre.data ++ (needle.data ++ post.data)) = true
  exact sub_list_append_left _ _ _ (sub_list_here _ _)

/-! ## Claim C4 -/

/-- Claim C4: `adapt_embedding v t` returns `v` unchanged when
`len v = t`; when `len v < t` it keeps `v` as a prefix and appends only
`0.0` entries; when `len v > t` it returns the first `t` values of `v`;
and in every case the result has length exactly `t`. -/
theorem adapt_embedding_spec (v : List Float) (t : Nat) :
    (adapt_embedding v t).length = t
    ∧ (v.length = t → adapt_embedding v t = v)
    ∧ (v.length < t →
        (adapt_embedding v t).take v.length = v
        ∧ ∀ x ∈ (adapt_embedding v t).drop v.length, x = 0.0)
    ∧ (t < v.length → adapt_embedding v t = v.take t) := by
  refine ⟨?_, ?_, ?_, ?_⟩
  · unfold adapt_embedding
    rcases Nat.lt_trichotomy v.length t with hlt | heq | hgt
    · simp [Nat.ne_of_lt hlt, hlt]
      omega
    · simp [heq]
    · simp [Nat.ne_of_gt hgt, Nat.not_lt.mpr (Nat.le_of_lt hgt)]
      omega
  · intro heq
    simp [adapt_embedding, heq]
  · intro hlt
    constructor
    · simp [adapt_embedding, Nat.ne_of_lt hlt, hlt, List.take_left]
    · intro x hx
      simp only [adapt_embedding, Nat.ne_of_lt hlt, hlt, if_neg, if_pos,
        ite_false, ite_true] at hx
      rw [List.drop_left] at hx
      exact List.eq_of_mem_replicate hx
  · intro hgt
    simp [adapt_embedding, Nat.ne_of_gt hgt, Nat.not_lt.mpr (Nat.le_of_lt hgt)]

/-- Witness for C4: evaluates the three branches at concrete inputs. -/
theorem adapt_embedding_spec_witness :
    adapt_embedding [(1.0 : Float)] 1 = [(1.0 : Float)]
    ∧ (adapt_embedding [(1.0 : Float)] 3).take 1 = [(1.0 : Float)]
    ∧ (∀ x ∈ (adapt_embedding [(1.0 : Float)] 3).drop 1, x = 0.0)
    ∧ adapt_embedding [(1.0 : Float), 2.0, 3.0] 2 = [(1.0 : Float), 2.0] := by
  refine ⟨(adapt_embedding_spec [(1.0 : Float)] 1).2.1 rfl,
    ((adapt_embedding_spec [(1.0 : Float)] 3).2.2.1 (by norm_num)).1,
    ((adapt_embedding_spec [(1.0 : Float)] 3).2.2.1 (by norm_num)).2,
    ?_⟩
  have h := (adapt_embedding_spec [(1.0 : Float), 2.0, 3.0] 2).2.2.2 (by norm_num)
  simpa using h

/-! ## Claim C6 -/

/-- Claim C6: three consecutive `mark_failure` calls with no intervening
`mark_success` leave a provider unavailable (status FAILED), and a single
`mark_success` resets the consecutive-error counter to zero, sets status
ACTIVE, and (for a provider holding a credential) makes it available again. -/
theorem provider_health_transitions (s : ProviderState) (e1 e2 e3 : String)
    (h : s.api_key.isSome = true) :
    (((s.mark_failure e1).mark_failure e2).mark_failure e3).status = ProviderStatus.FAILED
    ∧ (((s.mark_failure e1).mark_failure e2).mark_failure e3).is_available = false
    ∧ (s.mark_success).error_count = 0
    ∧ (s.mark_success).status = ProviderStatus.ACTIVE
    ∧ (s.mark_success).is_available = true := by
  have hst : (((s.mark_failure e1).mark_failure e2).mark_failure e3).status
      = ProviderStatus.FAILED := by
    simp only [ProviderState.mark_failure]
    have : 3 ≤ s.error_count + 1 + 1 + 1 := by omega
    simp [this]
  refine ⟨hst, ?_, rfl, rfl, ?_⟩
  · simp [ProviderState.is_available, hst]
  · simp [ProviderState.is_available, ProviderState.mark_success, h]

/-- Witness for C6 at a freshly constructed provider with a credential. -/
theorem provider_health_transitions_witness :
    ((((init_provider (some "k")).mark_failure "a").mark_failure "b").mark_failure "c").is_available = false
    ∧ ((init_provider (some "k")).mark_success).error_count = 0 := by
  refine ⟨(provider_health_transitions (init_provider (some "k")) "a" "b" "c" rfl).2.1, ?_⟩
  exact (provider_health_transitions (init_provider (some "k")) "a" "b" "c" rfl).2.2.1

/-! ## LLM manager (src/core/llm/manager.py)

A provider in the pool of the manager is its health state plus the outcome of
invoking it: every concrete provider method (see e.g.
`GeminiProvider.generate_text`) wraps one backend call in
`try: ...; mark_success(); return ... except: mark_failure(e); raise`,
so the invocation is modelled as a fixed `Except` outcome whose handling
performs exactly those health updates.  The payload type `α` is `String`
for `generate_text`, a parsed-JSON payload for `generate_json`, and
`List Float` for `get_embedding`. -/

structure Provider (α : Type) where
  st : ProviderState
  behavior : Except String α
deriving Repr

/-- One provider-method invocation: on success `mark_success` and return
the value; on failure `mark_failure(e)` and re-raise `e`. -/
def call_provider {α : Type} (p : Provider α) : Except String α × Provider α :=
  match p.behavior with
  | Except.ok v => (Except.ok v, { p with st := p.st.mark_success })
  | Except.error e => (Except.error e, { p with st := p.st.mark_failure e })

/-- The manager state relevant to one pool: the ordered provider list
(priority order), the `load_balance` flag and the shared rotation cursor
`_current_provider_index`. -/
structure Manager (α : Type) where
  providers : List (Provider α)
  load_balance : Bool
  current_provider_index : Nat
deriving Repr

/-- The `[p for p in providers if p.is_available()]` filter, keeping each
position of each provider in the pool as its identity. -/
def available_providers {α : Type} (ps : List (Provider α)) : List (Nat × Provider α) :=
  ps.enum.filter (fun q => q.snd.st.is_available)

/-- Transcription of `LLMManager._get_next_provider`: none if no provider
is available; under load balancing pick `available[cursor % len(available)]`
and advance the cursor; otherwise the first available provider. -/
def get_next_provider {α : Type} (m : Manager α) :
    Option (Nat × Provider α) × Manager α :=
  match available_providers m.providers with
  | [] => (none, m)
  | a :: rest =>
    if m.load_balance then
      (some ((a :: rest).get
          ⟨m.current_provider_index % (a :: rest).length,
           Nat.mod_lt _ (Nat.succ_pos rest.length)⟩),
       { m with current_provider_index := m.current_provider_index + 1 })
    else
      (some a, m)

/-- Structured form of the two exceptions a manager call can raise:
`unavailable` renders as "All ... providers are unavailable" and
`all_failed n e` as "All \x7bn\x7d providers failed. Last error: \x7be\x7d". -/
inductive ManagerFailure where
  | unavailable
  | all_failed (attempts : Nat) (last_error : Option String)
deriving DecidableEq, Repr

/-- The exception message raised by the failover loops. -/
def failure_message (f : ManagerFailure) : String :=
  match f with
  | ManagerFailure.unavailable => "All LLM providers are unavailable"
  | ManagerFailure.all_failed n e =>
      "All " ++ toString n ++ " providers failed. Last error: " ++ e.getD "None"

/-- Transcription of the common `while True` failover template of
`LLMManager.generate_text` / `generate_json` / `get_embedding` with the
default `retry_all=True`: select a provider, break (raising the
"all failed" exception) if it was already tried this call, otherwise
record it as tried and invoke it, returning the result on success and
looping with the recorded last error on failure.  `tried` holds pool
positions (Python compares provider objects by identity).  On success the
pair carries `len(tried_providers)`, the number of providers invoked.
The fuel argument only ensures termination; each iteration either stops
or strictly grows `tried` with a fresh pool position, so
`pool size + 1` iterations are never exceeded. -/
def failover_loop {α : Type} (fuel : Nat) (m : Manager α) (tried : List Nat)
    (last_error : Option String) :
    Except ManagerFailure (α × Nat) × Manager α :=
  match fuel with
  | 0 => (Except.error (ManagerFailure.all_failed tried.length last_error), m)
  | fuel + 1 =>
    match get_next_provider m with
    | (none, m1) => (Except.error ManagerFailure.unavailable, m1)
    | (some (i, p), m1) =>
      if i ∈ tried then
        (Except.error (ManagerFailure.all_failed tried.length last_error), m1)
      else
        match call_provider p with
        | (Except.ok v, p1) =>
          (Except.ok (v, (tried ++ [i]).length),
           { m1 with providers := m1.providers.set i p1 })
        | (Except.error e, p1) =>
          failover_loop fuel { m1 with providers := m1.providers.set i p1 }
            (tried ++ [i]) (some e)

/-- A manager call (`generate_text` / `generate_json` / `get_embedding`):
run the failover template starting from an empty tried set. -/
def manager_call {α : Type} (m : Manager α) :
    Except ManagerFailure (α × Nat) × Manager α :=
  failover_loop (m.providers.length + 1) m [] none

/-- Transcription of `LLMManager.generate_text` (payload: the generated string). -/
def manager_generate_text (m : Manager String) :
    Except ManagerFailure (String × Nat) × Manager String :=
  manager_call m

/-- Transcription of `LLMManager.get_embedding` (payload: the raw embedding vector,
returned exactly as the provider produced it). -/
def manager_get_embedding (m : Manager (List Float)) :
    Except ManagerFailure (List Float × Nat) × Manager (List Float) :=
  manager_call m

/-- A freshly constructed provider holding a credential, with the given
call outcome. -/
def fresh_provider {α : Type} (behavior : Except String α) : Provider α :=
  { st := init_provider (some "key"), behavior := behavior }

/-! ## Claim C1 -/

/-- Priority-mode pool: provider 0 always raises "boom", provider 1 always
succeeds with "hello"; both freshly constructed with credentials. -/
def c1_pool : Manager String :=
  { providers := [fresh_provider (Except.error "boom"), fresh_provider (Except.ok "hello")]
    load_balance := false
    current_provider_index := 0 }

/-- Claim C1 (code bug, evaluated at the failing input): with two fresh
available providers in priority mode where provider 0 always fails and
provider 1 always succeeds, `generate_text` raises the all-failed
exception reporting a single attempt instead of failing over: after
provider 0 fails once it is still `available[0]`, `_get_next_provider`
reselects it, the `provider in tried_providers` test breaks the loop, and
provider 1 is never invoked (its success and error counters stay 0) even
though invoking it would have succeeded. -/
theorem generate_text_skips_second_provider :
    (manager_generate_text c1_pool).1
      = Except.error (ManagerFailure.all_failed 1 (some "boom"))
    ∧ (manager_generate_text c1_pool).2.providers.map (fun p => p.st.success_count) = [0, 0]
    ∧ (manager_generate_text c1_pool).2.providers.map (fun p => p.st.error_count) = [1, 0]
    ∧ (call_provider (fresh_provider (Except.ok "hello"))).1 = Except.ok "hello" := by
  exact ⟨rfl, rfl, rfl, rfl⟩

/-! ## Claim C5 -/

/-- Priority-mode pool of two fresh providers that both always fail. -/
def c5_pool : Manager String :=
  { providers := [fresh_provider (Except.error "e1"), fresh_provider (Except.error "e2")]
    load_balance := false
    current_provider_index := 0 }

/-- Claim C5 (code bug, evaluated at the failing input): with N = 2
available providers that both always fail, the call does raise a single
generic exhaustion failure carrying the last underlying error, but its
message reports 1 attempt, not N = 2: only the first provider is ever
invoked before the loop breaks. -/
theorem exhaustion_reports_one_attempt :
    (manager_generate_text c5_pool).1
      = Except.error (ManagerFailure.all_failed 1 (some "e1"))
    ∧ failure_message (ManagerFailure.all_failed 1 (some "e1"))
        = "All 1 providers failed. Last error: e1"
    ∧ c5_pool.providers.length = 2 := by
  exact ⟨rfl, rfl, rfl⟩

/-! ## Claim C3 -/

/-- A raw Gemini-width embedding vector (768 entries). -/
def c3_vec : List Float := List.replicate 768 1.0

/-- Embedding pool holding one fresh provider that returns `c3_vec`. -/
def c3_pool : Manager (List Float) :=
  { providers := [fresh_provider (Except.ok c3_vec)]
    load_balance := false
    current_provider_index := 0 }

/-- Counterexample to claim C3: `get_embedding` hands back the raw
768-entry vector of the provider untouched — `adapt_embedding` is never invoked by the
manager — so the caller receives a vector whose length is not the target
dimensionality 1536. -/
theorem get_embedding_no_adaptation_counterexample :
    (manager_get_embedding c3_pool).1 = Except.ok (c3_vec, 1)
    ∧ c3_vec.length = 768
    ∧ TARGET_DIMENSIONS = 1536
    ∧ ¬ c3_vec.length = TARGET_DIMENSIONS := by
  have hlen : c3_vec.length = 768 := by
    show (List.replicate 768 (1.0 : Float)).length = 768
    rw [List.length_replicate]
  refine ⟨rfl, hlen, rfl, ?_⟩
  rw [hlen]
  decide

/-- Claim C3 as amended: when a provider in the embedding pool succeeds,
`get_embedding` marks it successful and returns its raw vector exactly as
produced, at whatever length the provider emitted; no routing through the
embedding normalizer (`adapt_embedding`) takes place. -/
theorem get_embedding_returns_raw_vector (s : ProviderState) (v : List Float)
    (h : s.is_available = true) :
    (manager_get_embedding
        { providers := [⟨s, Except.ok v⟩]
          load_balance := false
          current_provider_index := 0 }).1 = Except.ok (v, 1)
    ∧ (manager_get_embedding
        { providers := [⟨s, Except.ok v⟩]
          load_balance := false
          current_provider_index := 0 }).2.providers
      = [⟨s.mark_success, Except.ok v⟩] := by
  obtain ⟨key, stat, ec, sc, le⟩ := s
  cases stat <;> cases key <;>
    first
      | exact ⟨rfl, rfl⟩
      | simp [ProviderState.is_available] at h

/-- Witness for the amended C3 at a fresh provider returning a two-entry
vector: the result is the raw vector, not a 1536-entry one. -/
theorem get_embedding_returns_raw_vector_witness :
    (manager_get_embedding
        { providers := [⟨init_provider (some "k"), Except.ok [(1.0 : Float), 2.0]⟩]
          load_balance := false
          current_provider_index := 0 }).1 = Except.ok ([(1.0 : Float), 2.0], 1) :=
  (get_embedding_returns_raw_vector (init_provider (some "k")) [(1.0 : Float), 2.0] rfl).1

/-! ## Verification engine (src/modules/detection/verification_engine.py)

`verify_claim` builds a grounding prompt, runs
`chain.invoke(claim)` (claim embedding + hybrid retrieval + LLM call,
any of which can raise), extracts a JSON object from the reply with
a DOTALL `re.search` for a greedy brace-to-brace span, parses it with
`json.loads`, substitutes a fixed INCONCLUSIVO fallback when either step
fails, appends one entry to the JSONL history, and returns the result.
The whole method is wrapped in the `retry_api` decorator.  The chain and
`json.loads` are external effects, passed as functions returning
`Except`; the history file is threaded as a list (its writes are modelled
as succeeding — the Python code swallows storage errors). -/

/-- The opening-brace character. -/
def lbrace : Char := Char.ofNat 123

/-- The closing-brace character. -/
def rbrace : Char := Char.ofNat 125

/-- Prefix of `cs` running through the last occurrence of `ch`
(empty when `ch` does not occur). -/
def take_to_last (ch : Char) (cs : List Char) : List Char :=
  match cs.reverse.findIdx? (fun c => c == ch) with
  | none => []
  | some k => cs.take (cs.length - k)

/-- The match of the greedy regex on a character list: starting at the
first opening brace that has a closing brace somewhere after it, through
the last closing brace. -/
def braces_span : List Char → Option (List Char)
  | [] => none
  | c :: rest =>
    if c == lbrace && rest.contains rbrace then
      some (c :: take_to_last rbrace rest)
    else
      braces_span rest

/-- Model of `re.search` of the brace regex with DOTALL over the reply; `none`
models the regex returning no match (whereupon `.group()` raises
AttributeError). -/
def re_search_braces (s : String) : Option String :=
  (braces_span s.data).map (fun cs => String.mk cs)

/-- The verdict dictionary shape the engine returns (the instructed JSON
schema, which is also the shape of the hard-coded fallback). -/
structure VerificationRecord where
  veredito : String
  analise : String
  confianca : Int
  evidencias : List String
deriving DecidableEq, Repr

/-- Stands for `str(e)` of the AttributeError raised by calling
`.group()` on a failed regex search. -/
def regex_failure_msg : String := "NoneType object has no attribute group"

/-- The deterministic fallback record built in the `except` branch of
`verify_claim`. -/
def verdict_fallback (err : String) : VerificationRecord :=
  { veredito := "[INCONCLUSIVO]"
    analise := "Erro ao processar resposta da IA: " ++ err
    confianca := 0
    evidencias := [] }

/-- The parse step of `verify_claim`: extract the brace span and run
`json_loads` on it; on either failure return the fallback carrying the
error message of the failing step. -/
def parse_llm_response (json_loads : String → Except String VerificationRecord)
    (response : String) : VerificationRecord :=
  match re_search_braces response with
  | none => verdict_fallback regex_failure_msg
  | some slice =>
    match json_loads slice with
    | Except.ok r => r
    | Except.error e => verdict_fallback e

/-- One line of `data/verification_history.jsonl` as written by
`_save_to_history`: a timestamp, the claim, and the result dictionary. -/
structure HistoryEntry where
  timestamp : Nat
  claim : String
  result : VerificationRecord
deriving DecidableEq, Repr

/-- Transcription of `_save_to_history`: append one entry to the history file. -/
def save_to_history (now : Nat) (claim : String) (result : VerificationRecord)
    (history : List HistoryEntry) : List HistoryEntry :=
  history ++ [{ timestamp := now, claim := claim, result := result }]

/-- The rate-limit test of `retry_api`:
`"429" in str(e) or "RESOURCE_EXHAUSTED" in str(e)`. -/
def is_rate_limit (e : String) : Bool :=
  substr_check "429" e || substr_check "RESOURCE_EXHAUSTED" e

/-- The `while retries < max_retries` loop of `retry_api`, `fuel` being
`max_retries - retries`: a non-rate-limit error re-raises immediately, a
rate-limit error sleeps and retries, and when the loop exhausts, one
final unguarded call is made (its exception propagating). -/
def retry_go {α : Type} (func : Nat → Except String α) (attempt : Nat) :
    Nat → Except String α
  | 0 => func attempt
  | fuel + 1 =>
    match func attempt with
    | Except.ok a => Except.ok a
    | Except.error e =>
      if is_rate_limit e then retry_go func (attempt + 1) fuel else Except.error e

/-- The decorator `retry_api(max_retries=3, base_delay=2)`; the wrapped
function is indexed by the attempt number. -/
def retry_api {α : Type} (max_retries : Nat) (func : Nat → Except String α) :
    Except String α :=
  retry_go func 0 max_retries

/-- The body of `verify_claim`: invoke the chain (claim embedding,
retrieval, LLM — any failure raises), parse the reply, append to history,
return the result. -/
def verify_claim_body (json_loads : String → Except String VerificationRecord)
    (chain_invoke : Except String String) (claim : String) (now : Nat)
    (history : List HistoryEntry) :
    Except String (VerificationRecord × List HistoryEntry) :=
  match chain_invoke with
  | Except.error e => Except.error e
  | Except.ok response =>
    let result := parse_llm_response json_loads response
    Except.ok (result, save_to_history now claim result history)

/-- Transcription of `FactVerificationEngine.verify_claim`, decorator included. -/
def verify_claim (json_loads : String → Except String VerificationRecord)
    (chain_invoke : Nat → Except String String) (claim : String) (now : Nat)
    (history : List HistoryEntry) :
    Except String (VerificationRecord × List HistoryEntry) :=
  retry_api 3 (fun attempt => verify_claim_body json_loads (chain_invoke attempt) claim now history)

/-! ## Claim C2 -/

/-- Counterexample to claim C2: a backend failure before any LLM answer
is obtained (the chain raising a non-rate-limit error, e.g. the claim
embedding call failing) escapes `verify_claim` as an exception; no
ERROR-labelled verdict with confidence 0 is produced. -/
theorem verify_claim_raises_on_backend_failure :
    verify_claim (fun _ => Except.error "bad json")
        (fun _ => Except.error "connection refused") "claim" 0 []
      = Except.error "connection refused" := by
  rfl

/-- Claim C2 as amended: `verify_claim` converts only post-response parse
failures into a returned fallback; a failure while embedding the claim,
retrieving evidence or invoking the LLM propagates as an exception — a
non-rate-limit error is re-raised on the first attempt unchanged — while
any obtained response (parseable or not) yields a returned record plus a
history append, never an exception. -/
theorem verify_claim_error_behavior
    (json_loads : String → Except String VerificationRecord)
    (chain : Nat → Except String String) (claim : String) (now : Nat)
    (history : List HistoryEntry) :
    (∀ e, chain 0 = Except.error e → is_rate_limit e = false →
      verify_claim json_loads chain claim now history = Except.error e)
    ∧ (∀ resp, chain 0 = Except.ok resp →
      verify_claim json_loads chain claim now history
        = Except.ok (parse_llm_response json_loads resp,
            save_to_history now claim (parse_llm_response json_loads resp) history)) := by
  constructor
  · intro e he hrl
    unfold verify_claim retry_api
    have h1 : (fun attempt =>
        verify_claim_body json_loads (chain attempt) claim now history) 0
        = Except.error e := by
      simp [verify_claim_body, he]
    simp [retry_go, h1, hrl]
  · intro resp hresp
    unfold verify_claim retry_api
    have h1 : (fun attempt =>
        verify_claim_body json_loads (chain attempt) claim now history) 0
        = Except.ok (parse_llm_response json_loads resp,
            save_to_history now claim (parse_llm_response json_loads resp) history) := by
      simp [verify_claim_body, hresp]
    simp [retry_go, h1]

/-- Witness for the amended C2, both branches at concrete inputs. -/
theorem verify_claim_error_behavior_witness :
    verify_claim (fun _ => Except.error "x") (fun _ => Except.error "boom") "c" 0 []
      = Except.error "boom"
    ∧ verify_claim (fun _ => Except.error "x") (fun _ => Except.ok "resposta") "c" 0 []
      = Except.ok (parse_llm_response (fun _ => Except.error "x") "resposta",
          save_to_history 0 "c" (parse_llm_response (fun _ => Except.error "x") "resposta") []) :=
  ⟨(verify_claim_error_behavior (fun _ => Except.error "x")
      (fun _ => Except.error "boom") "c" 0 []).1 "boom" rfl rfl,
   (verify_claim_error_behavior (fun _ => Except.error "x")
      (fun _ => Except.ok "resposta") "c" 0 []).2 "resposta" rfl⟩

/-! ## Claim C7 -/

/-- Claim C7: when no JSON object can be extracted from the LLM reply
(the brace regex finds no match), `verify_claim` returns — without
raising — the deterministic fallback with veredito "[INCONCLUSIVO]",
confianca 0, an empty evidence list, and the error message contained in
the analise field. -/
theorem verify_claim_inconclusive_fallback
    (json_loads : String → Except String VerificationRecord)
    (chain : Nat → Except String String) (claim : String) (now : Nat)
    (history : List HistoryEntry) (resp : String)
    (hresp : chain 0 = Except.ok resp)
    (hnojson : re_search_braces resp = none) :
    verify_claim json_loads chain claim now history
      = Except.ok (verdict_fallback regex_failure_msg,
          save_to_history now claim (verdict_fallback regex_failure_msg) history)
    ∧ (verdict_fallback regex_failure_msg).veredito = "[INCONCLUSIVO]"
    ∧ (verdict_fallback regex_failure_msg).confianca = 0
    ∧ (verdict_fallback regex_failure_msg).evidencias = []
    ∧ substr_check regex_failure_msg (verdict_fallback regex_failure_msg).analise = true := by
  refine ⟨?_, rfl, rfl, rfl, by decide⟩
  unfold verify_claim retry_api
  have h1 : (fun attempt =>
      verify_claim_body json_loads (chain attempt) claim now history) 0
      = Except.ok (verdict_fallback regex_failure_msg,
          save_to_history now claim (verdict_fallback regex_failure_msg) history) := by
    simp [verify_claim_body, hresp, parse_llm_response, hnojson]
  simp [retry_go, h1]

/-- Witness for C7 at a reply with no braces. -/
theorem verify_claim_inconclusive_fallback_witness :
    verify_claim (fun _ => Except.error "never") (fun _ => Except.ok "sem json aqui") "c" 7 []
      = Except.ok (verdict_fallback regex_failure_msg,
          save_to_history 7 "c" (verdict_fallback regex_failure_msg) []) :=
  (verify_claim_inconclusive_fallback (fun _ => Except.error "never")
      (fun _ => Except.ok "sem json aqui") "c" 7 [] "sem json aqui" rfl rfl).1

/-! ## Claim C8 -/

/-- A parsed verdict dictionary used in the C8 scenario. -/
def c8_record : VerificationRecord :=
  { veredito := "[VERDADEIRO]"
    analise := "confirmado"
    confianca := 85
    evidencias := ["quote 1"] }

/-- Counterexample to claim C8: a completed `verify_claim` call does
append exactly one history entry, but the entry — fully determined
here — consists of the timestamp, the claim text and the result
dictionary only.  `_save_to_history` writes no caller identifier and no
evidence article identifiers (`verify_claim(self, claim)` does not even
accept a caller identifier, and only the evidence quotes inside the
`evidencias` quotes inside the result are kept, not article identifiers), so the history
record cannot contain what the claim says it contains. -/
theorem verify_claim_history_no_caller_counterexample :
    verify_claim (fun _ => Except.ok c8_record) (fun _ => Except.ok "\x7b\x7d")
        "claim text" 5 []
      = Except.ok (c8_record,
          [{ timestamp := 5, claim := "claim text", result := c8_record }]) := by
  rfl

/-- Claim C8 as amended: every completed `verify_claim` call — parsed
verdict and fallback alike — appends exactly one history entry, and that
entry holds the timestamp, the claim text, and the returned result
dictionary (no caller identifier, no evidence article identifiers). -/
theorem verify_claim_history_append
    (json_loads : String → Except String VerificationRecord)
    (chain : Nat → Except String String) (claim : String) (now : Nat)
    (history : List HistoryEntry) (resp : String)
    (hresp : chain 0 = Except.ok resp) :
    ∃ r, verify_claim json_loads chain claim now history
        = Except.ok (r, history ++ [(⟨now, claim, r⟩ : HistoryEntry)])
      ∧ (history ++ [(⟨now, claim, r⟩ : HistoryEntry)]).length = history.length + 1 := by
  refine ⟨parse_llm_response json_loads resp, ?_, by simp⟩
  unfold verify_claim retry_api
  have h1 : (fun attempt =>
      verify_claim_body json_loads (chain attempt) claim now history) 0
      = Except.ok (parse_llm_response json_loads resp,
          history ++ [(⟨now, claim, parse_llm_response json_loads resp⟩ : HistoryEntry)]) := by
    simp [verify_claim_body, hresp, save_to_history]
  simp [retry_go, h1]

/-- A pre-existing history entry for the C8 witness scenario. -/
def c8_old_entry : HistoryEntry :=
  { timestamp := 1, claim := "old", result := verdict_fallback "old" }

/-- Witness for the amended C8 on a one-entry starting history. -/
theorem verify_claim_history_append_witness :
    ∃ r, verify_claim (fun _ => Except.error "e") (fun _ => Except.ok "resp") "c" 3
          [c8_old_entry]
        = Except.ok (r, [c8_old_entry] ++ [(⟨3, "c", r⟩ : HistoryEntry)])
      ∧ ([c8_old_entry] ++ [(⟨3, "c", r⟩ : HistoryEntry)]).length
          = [c8_old_entry].length + 1 :=
  verify_claim_history_append (fun _ => Except.error "e") (fun _ => Except.ok "resp") "c" 3
    [c8_old_entry] "resp" rfl

/-! ## News detector (src/modules/analysis/detector.py)

`analyze_article` sends one structured-output prompt to the model and
parses the reply into a `FakeNewsDetection`; any exception (transport,
non-JSON reply, schema violation) is replaced by a fixed neutral
fallback.  `model.generate_content` + `json.loads` +
`FakeNewsDetection(**data)` together are the external effect, modelled as
one function from the prompt to an `Except`.  `run_batch_analysis` reads
the input articles, drops those whose URL already occurs in the analysis
output file, analyzes up to `limit` of the remaining ones and appends the
results to the output file (modelled as a record list). -/

/-- The four sub-scores of `core.models.DetectionScores`. -/
structure DetectionScores where
  factual_consistency : Nat
  linguistic_bias : Nat
  sensationalism : Nat
  source_credibility : Nat
deriving DecidableEq, Repr

/-- Model of `core.models.FakeNewsDetection` (timestamp field omitted: it is a
construction-time default never read by the detector). -/
structure FakeNewsDetection where
  is_fake : Bool
  confidence_score : Float
  reasoning : String
  detected_markers : List String
  scores : DetectionScores
deriving Repr

/-- The fields of `core.models.NewsArticle` the detector reads. -/
structure NewsArticle where
  title : String
  content : String
  url : String
deriving DecidableEq, Repr

/-- The analysis prompt built by `analyze_article` (instruction text
abridged; only title and content vary). -/
def build_analysis_prompt (a : NewsArticle) : String :=
  "Analyze the following news article for potential misinformation, fake news markers, and bias. TITLE: "
    ++ a.title ++ " CONTENT: " ++ a.content

/-- Transcription of `NewsDetector.analyze_article`: on any failure return the neutral
fallback record with all sub-scores at 5 and the error in the reasoning. -/
def analyze_article (generate_content : String → Except String FakeNewsDetection)
    (article : NewsArticle) : FakeNewsDetection :=
  match generate_content (build_analysis_prompt article) with
  | Except.ok d => d
  | Except.error e =>
    { is_fake := false
      confidence_score := 0.0
      reasoning := "Error during analysis: " ++ e
      detected_markers := []
      scores := { factual_consistency := 5, linguistic_bias := 5
                  sensationalism := 5, source_credibility := 5 } }

/-! ## Claim C9 -/

/-- Claim C9: whenever the model call fails (provider error or
unparseable response), `analyze_article` returns — without raising — the
fallback with `is_fake = false`, confidence 0.0, no markers, all four
sub-scores equal to 5, and a reasoning containing the substring
"Error". -/
theorem analyze_article_fallback
    (generate_content : String → Except String FakeNewsDetection)
    (a : NewsArticle) (e : String)
    (h : generate_content (build_analysis_prompt a) = Except.error e) :
    (analyze_article generate_content a).is_fake = false
    ∧ (analyze_article generate_content a).confidence_score = 0.0
    ∧ (analyze_article generate_content a).detected_markers = []
    ∧ (analyze_article generate_content a).scores = ⟨5, 5, 5, 5⟩
    ∧ substr_check "Error" (analyze_article generate_content a).reasoning = true := by
  unfold analyze_article
  rw [h]
  exact ⟨rfl, rfl, rfl, rfl, substr_check_of_parts "Error" "" (" during analysis: " ++ e)⟩

/-- Witness for C9 with a backend that always throws. -/
theorem analyze_article_fallback_witness :
    (analyze_article (fun _ => Except.error "backend down")
        { title := "t", content := "c", url := "http://x" }).is_fake = false
    ∧ (analyze_article (fun _ => Except.error "backend down")
        { title := "t", content := "c", url := "http://x" }).scores = ⟨5, 5, 5, 5⟩ :=
  ⟨(analyze_article_fallback (fun _ => Except.error "backend down")
      { title := "t", content := "c", url := "http://x" } "backend down" rfl).1,
   (analyze_article_fallback (fun _ => Except.error "backend down")
      { title := "t", content := "c", url := "http://x" } "backend down" rfl).2.2.2.1⟩

/-! ## Batch analysis (C10) -/

/-- One line of the analysis output JSONL: the serialized article (of
which only the URL is read back by `_load_analyzed_urls`) plus the
detection payload. -/
structure AnalysisRecord where
  article_url : String
  detection : FakeNewsDetection
deriving Repr

/-- Transcription of `NewsDetector._load_analyzed_urls`: the URLs found in the output
file, skipping empty ones (Python collects them into a set; only
membership matters). -/
def load_analyzed_urls (output : List AnalysisRecord) : List String :=
  (output.map (fun r => r.article_url)).filter (fun u => !(decide (u = "")))

/-- Transcription of `NewsDetector.run_batch_analysis`: no-op on empty input or when every
article is already analyzed; otherwise analyze the first `limit`
not-yet-analyzed articles and append their records to the output. -/
def run_batch_analysis (generate_content : String → Except String FakeNewsDetection)
    (limit : Nat) (input : List NewsArticle) (output : List AnalysisRecord) :
    List AnalysisRecord :=
  if input.isEmpty then output
  else
    let analyzed_urls := load_analyzed_urls output
    let new_articles := input.filter (fun a => !(decide (a.url ∈ analyzed_urls)))
    if new_articles.isEmpty then output
    else
      let targets := new_articles.take limit
      output ++ targets.map (fun a =>
        { article_url := a.url, detection := analyze_article generate_content a })

/-! ## Claim C10 -/

/-- First article of the duplicate-URL scenario. -/
def c10_a1 : NewsArticle := { title := "t1", content := "c1", url := "http://u" }

/-- Second article of the duplicate-URL scenario, same URL. -/
def c10_a2 : NewsArticle := { title := "t2", content := "c2", url := "http://u" }

/-- Counterexample to claim C10: when the input file lists two articles
with the same URL, a single `run_batch_analysis` over an empty output
appends two records for that URL — the cache only filters against the
output as it was when the run started, not within the run. -/
theorem run_batch_duplicate_url_counterexample :
    ((run_batch_analysis (fun _ => Except.error "down") 5 [c10_a1, c10_a2] []).map
        (fun r => r.article_url)).count "http://u" = 2 := by
  rfl

/-- Claim C10 as amended: provided the input articles carry pairwise
distinct URLs, batch analysis keeps at-most-one-record-per-URL invariant:
a (nonempty) URL occurring at most once in the output still occurs at
most once after any further run, because a URL already present is
filtered out at the start of the run and a fresh URL is appended at most
once per run. -/
theorem run_batch_analysis_url_unique
    (generate_content : String → Except String FakeNewsDetection)
    (limit : Nat) (input : List NewsArticle) (output : List AnalysisRecord)
    (u : String) (hu : ¬ u = "")
    (hnodup : (input.map (fun a => a.url)).Nodup)
    (hcount : (output.map (fun r => r.article_url)).count u ≤ 1) :
    ((run_batch_analysis generate_content limit input output).map
        (fun r => r.article_url)).count u ≤ 1 := by
  unfold run_batch_analysis
  by_cases hin : input.isEmpty
  · simpa [hin] using hcount
  · simp only [hin, Bool.false_eq_true, if_false]
    by_cases hne : (input.filter
        (fun a => !(decide (a.url ∈ load_analyzed_urls output)))).isEmpty
    · simpa [hne] using hcount
    · simp only [hne, Bool.false_eq_true, if_false]
      rw [List.map_append, List.count_append, List.map_map]
      have hcomp : ((fun r : AnalysisRecord => r.article_url) ∘
          (fun a : NewsArticle =>
            ({ article_url := a.url,
               detection := analyze_article generate_content a } : AnalysisRecord)))
          = fun a : NewsArticle => a.url := rfl
      rw [hcomp]
      by_cases hmem : u ∈ output.map (fun r => r.article_url)
      · have huA : u ∈ load_analyzed_urls output := by
          unfold load_analyzed_urls
          rw [List.mem_filter]
          exact ⟨hmem, by simpa using hu⟩
        have hzero : (((input.filter
            (fun a => !(decide (a.url ∈ load_analyzed_urls output)))).take limit).map
              (fun a => a.url)).count u = 0 := by
          rw [List.count_eq_zero]
          intro hmemu
          obtain ⟨a, ha, hau⟩ := List.mem_map.mp hmemu
          have ha2 := List.take_subset _ _ ha
          rw [List.mem_filter] at ha2
          rw [hau] at ha2
          simpa [huA] using ha2.2
        omega
      · have hzero : (output.map (fun r => r.article_url)).count u = 0 :=
          List.count_eq_zero.mpr hmem
        have hsub : (((input.filter
            (fun a => !(decide (a.url ∈ load_analyzed_urls output)))).take limit).map
              (fun a => a.url)).Sublist (input.map (fun a => a.url)) :=
          List.Sublist.map _ ((List.take_sublist _ _).trans (List.filter_sublist _))
        have hnd := hnodup.sublist hsub
        have := List.nodup_iff_count_le_one.mp hnd u
        omega

/-- Witness for the amended C10: a second run over an input whose single
URL is already in the output appends nothing more for it. -/
theorem run_batch_analysis_url_unique_witness :
    ¬ "http://u" = ""
    ∧ ([c10_a1].map (fun a => a.url)).Nodup
    ∧ (([(⟨"http://u", analyze_article (fun _ => Except.error "down") c10_a1⟩ : AnalysisRecord)].map
        (fun r => r.article_url)).count "http://u") ≤ 1
    ∧ ((run_batch_analysis (fun _ => Except.error "down") 5 [c10_a1]
          [⟨"http://u", analyze_article (fun _ => Except.error "down") c10_a1⟩]).map
        (fun r => r.article_url)).count "http://u" ≤ 1 := by
  refine ⟨by decide, by simp, ?_, ?_⟩
  · show (["http://u"].count "http://u") ≤ 1
    decide
  · exact run_batch_analysis_url_unique (fun _ => Except.error "down") 5 [c10_a1]
      [⟨"http://u", analyze_article (fun _ => Except.error "down") c10_a1⟩]
      "http://u" (by decide) (by simp)
      (by show (["http://u"].count "http://u") ≤ 1; decide)

end Vortex
